import Mathlib

/-!
Shallow embedding of the two trading scripts of this repository
(`src/null.py`, the movement/retracement strategy, and `src/vbs.py`, the
volatility-breakout strategy) together with proofs about the behaviour
their specification describes.

Conventions of the embedding:
* Python floats are modelled as rationals (`ℚ`); `round(x, n)` is modelled
  as decimal round-half-to-even on `ℚ` (Python's round-half-even rule,
  idealised over exact decimals).
* Timestamps are rationals measured in minutes (vbs.py compares
  `datetime` differences against `timedelta(minutes=15)`).
* A Python exception that would propagate out of the modelled code is an
  `Except.error` value carrying the exception kind.
* A market-order submission (`client.futures_create_order` /
  `place_order` / `place_futures_order`) is recorded as an `Order` value
  in the output of the modelled function; the exchange itself is outside
  the model.
-/

/-- Exception kinds raised by the modelled fragments of the scripts:
`indexError` models pandas `iloc` on an empty frame, `zeroDivision`
models Python's `ZeroDivisionError`. -/
inductive PyErr where
  | indexError
  | zeroDivision
deriving DecidableEq, Repr

/-- Order side, mirroring binance `SIDE_BUY` / `SIDE_SELL`. -/
inductive Side where
  | buy
  | sell
deriving DecidableEq, Repr

/-- A market order as submitted by the scripts: a side and a quantity. -/
structure Order where
  side : Side
  quantity : ℚ
deriving DecidableEq, Repr

/-- One OHLC candle row of the downloaded kline frame (volume is unused
by the modelled code paths). -/
structure Candle where
  openP : ℚ
  high : ℚ
  low : ℚ
  close : ℚ
deriving DecidableEq, Repr

/-- Round-half-to-even of a rational to an integer, the tie rule used by
Python's builtin `round`. -/
def roundHalfEven (q : ℚ) : ℤ :=
  let f := ⌊q⌋
  let frac := q - (f : ℚ)
  if frac < 1 / 2 then f
  else if 1 / 2 < frac then f + 1
  else if f % 2 = 0 then f else f + 1

/-- Python's `round(q, n)`: round to `n` decimal places, half to even. -/
def roundTo (q : ℚ) (n : ℕ) : ℚ :=
  (roundHalfEven (q * 10 ^ n) : ℚ) / 10 ^ n

/-- Decimal precision used by `calculate_position_size` in vbs.py for
each symbol: 3 places for BTCUSDT, 2 for ETHUSDT, and 3 for any other
symbol (the final `else` branch of the source). -/
def symbolPrecision (symbol : String) : ℕ :=
  if symbol = "BTCUSDT" then 3 else if symbol = "ETHUSDT" then 2 else 3

/-- Embedding of `calculate_position_size` (vbs.py lines 32-54), with the
account balance and ticker price — which the source fetches from the
exchange at the top of the function — passed in as arguments. A zero
price makes the Python division raise `ZeroDivisionError`. -/
def calculate_position_size (symbol : String) (balance position_pct leverage current_price : ℚ) :
    Except PyErr ℚ :=
  if current_price = 0 then .error .zeroDivision
  else
    let available_balance := balance * position_pct
    let quantity := available_balance * leverage / current_price
    if symbol = "BTCUSDT" then .ok (roundTo quantity 3)
    else if symbol = "ETHUSDT" then .ok (roundTo quantity 2)
    else .ok (roundTo quantity 3)

/-- Level `Buy_Signal` of the most recent row of the vbs.py frame:
`Open + (High_prev - Low_prev) * k`, where the `_prev` columns come from
`shift(1)`. On a window of length < 2 the shifted values are NaN, which
the embedding represents as `none`. -/
def buySignalLevel (window : List Candle) (k : ℚ) : Option ℚ :=
  match window.getLast?, window.dropLast.getLast? with
  | some latest, some prev => some (latest.openP + (prev.high - prev.low) * k)
  | _, _ => none

/-- Level `Sell_Signal` of the most recent row: `Open - (High_prev - Low_prev) * k`. -/
def sellSignalLevel (window : List Candle) (k : ℚ) : Option ℚ :=
  match window.getLast?, window.dropLast.getLast? with
  | some latest, some prev => some (latest.openP - (prev.high - prev.low) * k)
  | _, _ => none

/-- Pandas comparison `x > y` where `y` may be NaN (`none`): a comparison
against NaN is false. -/
def gtOpt (x : ℚ) : Option ℚ → Bool
  | some y => decide (x > y)
  | none => false

/-- Pandas comparison `x < y` where `y` may be NaN (`none`). -/
def ltOpt (x : ℚ) : Option ℚ → Bool
  | some y => decide (x < y)
  | none => false

/-- The cooldown guard at the top of `run_strategy` (vbs.py lines 76-80):
active when a last close time is recorded and fewer than 15 minutes have
elapsed since. -/
def cooldownActive (lastClose : Option ℚ) (now : ℚ) : Bool :=
  match lastClose with
  | none => false
  | some t => decide (now - t < 15)

/-- Mutable state of `run_strategy` across ticks for one symbol: the
`last_close_time[symbol]` entry. -/
structure VbsState where
  lastCloseTime : Option ℚ
deriving DecidableEq, Repr

/-- Values `run_strategy` reads from the outside world during one call:
the clock, the candle frame, the broker-reported position and entry
price, the ticker price, and the wallet balance. -/
structure VbsInput where
  now : ℚ
  window : List Candle
  positionAmt : ℚ
  entryPrice : ℚ
  currentPrice : ℚ
  balance : ℚ
deriving DecidableEq, Repr

/-- Which control-flow path one `run_strategy` call took. -/
inductive Outcome where
  | blocked
  | profitExit
  | enterLong
  | reverseShortToLong
  | enterShort
  | reverseLongToShort
  | holdSameSide
  | noSignal
deriving DecidableEq, Repr

/-- Result of one `run_strategy` call: the updated state, the market
orders submitted (in submission order), and the path taken. -/
structure TickResult where
  state : VbsState
  orders : List Order
  outcome : Outcome
deriving DecidableEq, Repr

/-- The entry section of `run_strategy` (vbs.py lines 134-167): an
`if high > Buy_Signal / elif low < Sell_Signal / else` chain, with the
position-existence subcases inside each branch. -/
def vbsEntryPhase (latest : Candle) (buySig sellSig : Option ℚ)
    (quantity positionAmt : ℚ) (s : VbsState) : TickResult :=
  if gtOpt latest.high buySig then
    if positionAmt = 0 then ⟨s, [⟨.buy, quantity⟩], .enterLong⟩
    else if positionAmt < 0 then ⟨s, [⟨.buy, |positionAmt|⟩, ⟨.buy, quantity⟩], .reverseShortToLong⟩
    else ⟨s, [], .holdSameSide⟩
  else if ltOpt latest.low sellSig then
    if positionAmt = 0 then ⟨s, [⟨.sell, quantity⟩], .enterShort⟩
    else if positionAmt > 0 then ⟨s, [⟨.sell, positionAmt⟩, ⟨.sell, quantity⟩], .reverseLongToShort⟩
    else ⟨s, [], .holdSameSide⟩
  else ⟨s, [], .noSignal⟩

/-- The per-tick ROI percentage computed at vbs.py lines 111-117: long
positions use `(current - entry) / entry * 100`, short positions the
negated numerator. -/
def vbsRoi (positionAmt entryPrice currentPrice : ℚ) : ℚ :=
  if positionAmt > 0 then (currentPrice - entryPrice) / entryPrice * 100
  else (entryPrice - currentPrice) / entryPrice * 100

/-- Embedding of one `run_strategy` call (vbs.py lines 69-167).
The cooldown is the hard-coded `timedelta(minutes=15)`. `data.iloc[-1]`
on an empty frame raises, hence the `indexError` case; the profit-target
ROI computation divides by the reported entry price, hence the
`zeroDivision` case when a position is reported with entry price 0. -/
def vbsTick (symbol : String) (k position_pct leverage : ℚ)
    (s : VbsState) (inp : VbsInput) : Except PyErr TickResult :=
  if cooldownActive s.lastCloseTime inp.now then .ok ⟨s, [], .blocked⟩
  else
    match inp.window.getLast? with
    | none => .error .indexError
    | some latest =>
      let buySig := buySignalLevel inp.window k
      let sellSig := sellSignalLevel inp.window k
      match calculate_position_size symbol inp.balance position_pct leverage inp.currentPrice with
      | .error e => .error e
      | .ok quantity =>
        if inp.positionAmt ≠ 0 then
          if inp.entryPrice = 0 then .error .zeroDivision
          else
            if vbsRoi inp.positionAmt inp.entryPrice inp.currentPrice ≥ 5 then
              .ok ⟨⟨some inp.now⟩,
                   [⟨if inp.positionAmt > 0 then .sell else .buy, |inp.positionAmt|⟩],
                   .profitExit⟩
            else .ok (vbsEntryPhase latest buySig sellSig quantity inp.positionAmt s)
        else .ok (vbsEntryPhase latest buySig sellSig quantity inp.positionAmt s)

/-- The `__main__` loop of vbs.py restricted to one symbol: run ticks in
sequence, threading the state; an uncaught exception ends the run (the
loop at vbs.py lines 170-182 catches only `KeyboardInterrupt`). -/
def vbsRun (symbol : String) (k position_pct leverage : ℚ) :
    VbsState → List VbsInput → List TickResult
  | _, [] => []
  | s, inp :: rest =>
    match vbsTick symbol k position_pct leverage s inp with
    | .error _ => []
    | .ok r => r :: vbsRun symbol k position_pct leverage r.state rest

/-- Embedding of `calculate_movement` (null.py lines 39-46): relative
close-to-close change over the last `num_bars` candles of `closes` (the
close column, oldest first). Shorter windows return 0. `recent.iloc[0]`
on an empty tail raises; a zero starting close makes the Python division
raise. -/
def calculate_movement (closes : List ℚ) (num_bars : ℕ) : Except PyErr ℚ :=
  if closes.length < num_bars then .ok 0
  else
    let recent := closes.drop (closes.length - num_bars)
    match recent.head?, recent.getLast? with
    | some start, some stop =>
      if start = 0 then .error .zeroDivision else .ok ((stop - start) / start)
    | _, _ => .error .indexError

/-- The entry decision of `TradingStrategy.run` (null.py lines 121-133):
compute the movement, and when it clears the threshold and the ticker
price has reached the retracement level, submit one market order sized
at `balance * position_size_percent / current_price * leverage`, with
side `BUY` when the movement is negative and `SELL` otherwise. `none`
means no order is placed this tick. -/
def nullEntryDecision (closes : List ℚ) (num_bars : ℕ)
    (movement_threshold position_size_percent leverage current_price balance : ℚ) :
    Except PyErr (Option Order) :=
  match calculate_movement closes num_bars with
  | .error e => .error e
  | .ok movement =>
    if |movement| ≥ movement_threshold then
      match closes.getLast? with
      | none => .error .indexError
      | some last_close =>
        let retrace_level := last_close - movement / 2 * last_close
        if (movement > 0 ∧ current_price ≤ retrace_level) ∨
           (movement < 0 ∧ current_price ≥ retrace_level) then
          if current_price = 0 then .error .zeroDivision
          else
            let position_size := balance * position_size_percent / current_price * leverage
            let side := if movement < 0 then Side.buy else Side.sell
            .ok (some ⟨side, position_size⟩)
        else .ok none
    else .ok none

/-- The closing side used by null.py when force-closing after the hold
loop: `SELL` for a `BUY` position and vice versa. -/
def oppositeSide : Side → Side
  | .buy => .sell
  | .sell => .buy

/-- The hold-monitoring `while bars_held < max_hold_bars` loop of
`TradingStrategy.run` (null.py lines 141-167). `prices i` is the ticker
price fetched on the iteration entered with `bars_held = i`. Returns the
close orders submitted inside the loop together with the final
`bars_held` value. -/
def holdLoop (side : Side) (qty : ℚ) (prices : ℕ → ℚ)
    (highest lowest : ℚ) (bars_held max_hold_bars : ℕ) : List Order × ℕ :=
  if h : bars_held < max_hold_bars then
    let current_price := prices bars_held
    let highest := max highest current_price
    let lowest := min lowest current_price
    if side = Side.buy ∧ current_price ≥ highest then ([⟨Side.sell, qty⟩], bars_held)
    else if side = Side.sell ∧ current_price ≤ lowest then ([⟨Side.buy, qty⟩], bars_held)
    else holdLoop side qty prices highest lowest (bars_held + 1) max_hold_bars
  else ([], bars_held)
termination_by max_hold_bars - bars_held
decreasing_by omega

/-- The full position-holding phase of `TradingStrategy.run` (null.py
lines 136-178): run the hold loop starting from
`highest = lowest = entry_price` and `bars_held = 0`, then force-close
when the loop ended with `bars_held >= max_hold_bars`. Returns every
close order submitted during the phase. -/
def holdPhase (side : Side) (qty : ℚ) (prices : ℕ → ℚ)
    (entry_price : ℚ) (max_hold_bars : ℕ) : List Order :=
  let r := holdLoop side qty prices entry_price entry_price 0 max_hold_bars
  if r.2 ≥ max_hold_bars then r.1 ++ [⟨oppositeSide side, qty⟩] else r.1

/-- Python exception classes relevant to the two main loops: any
`Exception` subclass raised by a port call (network, exchange, parsing),
versus `KeyboardInterrupt`, which does not derive from `Exception`. -/
inductive PyExn where
  | portFailure
  | keyboardInterrupt
deriving DecidableEq, Repr

/-- What a loop does after one tick-body execution: keep looping after
sleeping the given number of seconds, exit cleanly, or die with an
uncaught exception. -/
inductive LoopFate where
  | continueLoop (sleep_seconds : ℕ)
  | exitGracefully
  | crash
deriving DecidableEq, Repr

/-- One iteration of the `while self.running` loop of
`TradingStrategy.run` (null.py lines 114-184): the whole tick body is
wrapped in `try/except Exception`, which logs and sleeps 5 seconds, so
any port failure continues the loop; on a normal tick the loop sleeps
the candle interval. -/
def nullThreadStep (interval_seconds : ℕ) : Except PyExn Unit → LoopFate
  | .ok _ => .continueLoop interval_seconds
  | .error .portFailure => .continueLoop 5
  | .error .keyboardInterrupt => .crash

/-- One iteration of the `while True` loop of vbs.py `__main__` (lines
170-182): only `KeyboardInterrupt` is caught (ending the program with a
message); any other exception escaping `run_strategy` is uncaught and
terminates the program. On a normal iteration the loop sleeps 30
seconds. -/
def vbsMainStep : Except PyExn Unit → LoopFate
  | .ok _ => .continueLoop 30
  | .error .keyboardInterrupt => .exitGracefully
  | .error .portFailure => .crash

theorem roundHalfEven_nonneg (q : ℚ) (h : 0 ≤ q) : 0 ≤ roundHalfEven q := by
  have hf : (0 : ℤ) ≤ ⌊q⌋ := Int.floor_nonneg.mpr h
  unfold roundHalfEven
  simp only []
  split_ifs <;> omega

theorem roundTo_nonneg (q : ℚ) (n : ℕ) (h : 0 ≤ q) : 0 ≤ roundTo q n := by
  unfold roundTo
  apply div_nonneg
  · exact_mod_cast roundHalfEven_nonneg _ (by positivity)
  · positivity

theorem calculate_position_size_eq (symbol : String) (b pct lev p : ℚ) (hp : p ≠ 0) :
    calculate_position_size symbol b pct lev p =
      .ok (roundTo (b * pct * lev / p) (symbolPrecision symbol)) := by
  simp only [calculate_position_size, symbolPrecision, if_neg hp]
  split_ifs <;> rfl

theorem vbsEntryPhase_state (latest : Candle) (buySig sellSig : Option ℚ)
    (quantity positionAmt : ℚ) (s : VbsState) :
    (vbsEntryPhase latest buySig sellSig quantity positionAmt s).state = s := by
  unfold vbsEntryPhase
  split_ifs <;> rfl

theorem vbsEntryPhase_outcome (latest : Candle) (buySig sellSig : Option ℚ)
    (quantity positionAmt : ℚ) (s : VbsState) :
    (vbsEntryPhase latest buySig sellSig quantity positionAmt s).outcome ≠ .blocked ∧
    (vbsEntryPhase latest buySig sellSig quantity positionAmt s).outcome ≠ .profitExit := by
  unfold vbsEntryPhase
  split_ifs <;> exact ⟨by simp, by simp⟩

theorem vbsTick_state_eq {symbol : String} {k pct lev : ℚ} {s : VbsState}
    {inp : VbsInput} {r : TickResult}
    (h : vbsTick symbol k pct lev s inp = .ok r) (hout : r.outcome ≠ .profitExit) :
    r.state = s := by
  simp only [vbsTick] at h
  split at h
  · cases h
    rfl
  · split at h
    · exact absurd h (by simp)
    · rename_i latest heq
      split at h
      · exact absurd h (by simp)
      · rename_i quantity hq
        split at h
        · split at h
          · exact absurd h (by simp)
          · split at h
            · cases h
              exact absurd rfl hout
            · cases h
              exact vbsEntryPhase_state ..
        · cases h
          exact vbsEntryPhase_state ..

theorem vbsTick_not_blocked_of_none {symbol : String} {k pct lev : ℚ} {s : VbsState}
    {inp : VbsInput} {r : TickResult}
    (hs : s.lastCloseTime = none) (h : vbsTick symbol k pct lev s inp = .ok r) :
    r.outcome ≠ .blocked := by
  simp only [vbsTick, hs] at h
  simp only [cooldownActive, Bool.false_eq_true, if_false] at h
  split at h
  · exact absurd h (by simp)
  · split at h
    · exact absurd h (by simp)
    · split at h
      · split at h
        · exact absurd h (by simp)
        · split at h
          · cases h
            simp
          · cases h
            exact (vbsEntryPhase_outcome ..).1
      · cases h
        exact (vbsEntryPhase_outcome ..).1

theorem vbsRun_no_profit_no_blocked (symbol : String) (k pct lev : ℚ) :
    ∀ (inputs : List VbsInput) (s : VbsState), s.lastCloseTime = none →
      (∀ r ∈ vbsRun symbol k pct lev s inputs, r.outcome ≠ .profitExit) →
      ∀ r ∈ vbsRun symbol k pct lev s inputs, r.outcome ≠ .blocked := by
  intro inputs
  induction inputs with
  | nil =>
    intro s hs hnp r hr
    simp [vbsRun] at hr
  | cons i rest ih =>
    intro s hs hnp r hr
    rw [vbsRun] at hr hnp
    cases htick : vbsTick symbol k pct lev s i with
    | error e =>
      rw [htick] at hr
      simp at hr
    | ok r0 =>
      rw [htick] at hr hnp
      simp only [List.mem_cons] at hr
      rcases hr with rfl | hr
      · exact vbsTick_not_blocked_of_none hs htick
      · have hnp0 : r0.outcome ≠ .profitExit := hnp r0 (List.mem_cons_self ..)
        have hstate : r0.state = s := vbsTick_state_eq htick hnp0
        exact ih r0.state (hstate ▸ hs) (fun r' hr' => hnp r' (List.mem_cons_of_mem _ hr')) r hr

theorem holdLoop_spec : ∀ (n : ℕ) (side : Side) (qty : ℚ) (prices : ℕ → ℚ)
    (highest lowest : ℚ) (b mhb : ℕ), mhb - b = n → b ≤ mhb →
    (∃ b2, b2 < mhb ∧
      holdLoop side qty prices highest lowest b mhb = ([⟨oppositeSide side, qty⟩], b2)) ∨
    holdLoop side qty prices highest lowest b mhb = ([], mhb) := by
  intro n
  induction n with
  | zero =>
    intro side qty prices highest lowest b mhb hn hle
    have hb : b = mhb := by omega
    rw [holdLoop]
    simp [hb]
  | succ n ih =>
    intro side qty prices highest lowest b mhb hn hle
    have hlt : b < mhb := by omega
    rw [holdLoop]
    rw [dif_pos hlt]
    simp only []
    split_ifs with h1 h2
    · left
      refine ⟨b, hlt, ?_⟩
      cases side with
      | buy => rfl
      | sell => simp at h1
    · left
      refine ⟨b, hlt, ?_⟩
      cases side with
      | buy => simp at h2
      | sell => rfl
    · exact ih side qty prices _ _ (b + 1) mhb (by omega) (by omega)

/-- C2 (amended): a port failure inside a null.py strategy-thread tick is
caught by the `except Exception` handler at the tick boundary and the
loop continues after a 5-second backoff; in vbs.py, however, the main
loop catches only `KeyboardInterrupt`, so a port failure raised during a
`run_strategy` tick propagates and terminates the whole program. -/
theorem c2_claim :
    (∀ interval_seconds : ℕ,
      nullThreadStep interval_seconds (.error .portFailure) = .continueLoop 5) ∧
    vbsMainStep (.error .portFailure) = .crash ∧
    vbsMainStep (.error .keyboardInterrupt) = .exitGracefully :=
  ⟨fun _ => rfl, rfl, rfl⟩

/-- C2 counterexample: in vbs.py a single failing tick terminates the
program — the main loop reacts to a port failure by crashing, not by
continuing — contradicting the claim that no port failure during a tick
ever terminates the strategy instance or the program. -/
theorem c2_counterexample :
    vbsMainStep (.error .portFailure) = .crash ∧
    LoopFate.crash ≠ LoopFate.continueLoop 30 :=
  ⟨rfl, by simp⟩

/-- C3 (amended): for every nonzero price, `calculate_position_size`
computes `round((balance * pct * leverage) / price, prec)` where `prec`
is 3 decimal places for BTCUSDT, 2 for ETHUSDT, and 3 (the finer of the
two precisions, not the coarser) for any unlisted symbol; the
spec example (balance 10000, fraction 0.4, leverage 10, price 50000)
yields 0.8; and for non-negative inputs the result is a non-negative
integer multiple of the precision step. -/
theorem c3_claim :
    (∀ (symbol : String) (b pct lev p : ℚ), p ≠ 0 →
      calculate_position_size symbol b pct lev p =
        .ok (roundTo (b * pct * lev / p) (symbolPrecision symbol))) ∧
    symbolPrecision "BTCUSDT" = 3 ∧
    symbolPrecision "ETHUSDT" = 2 ∧
    (∀ symbol : String, symbol ≠ "BTCUSDT" → symbol ≠ "ETHUSDT" →
      symbolPrecision symbol = 3) ∧
    calculate_position_size "BTCUSDT" 10000 (4/10) 10 50000 = .ok (4/5) ∧
    (∀ (symbol : String) (b pct lev p q : ℚ), 0 ≤ b → 0 ≤ pct → 0 ≤ lev → 0 < p →
      calculate_position_size symbol b pct lev p = .ok q →
      0 ≤ q ∧ ∃ z : ℤ, q = (z : ℚ) / 10 ^ symbolPrecision symbol) := by
  refine ⟨calculate_position_size_eq, rfl, rfl, ?_, ?_, ?_⟩
  · intro sym h1 h2
    simp [symbolPrecision, h1, h2]
  · norm_num [calculate_position_size, roundTo, roundHalfEven]
  · intro sym b pct lev p q hb hpct hlev hp h
    rw [calculate_position_size_eq sym b pct lev p (ne_of_gt hp)] at h
    have hq : roundTo (b * pct * lev / p) (symbolPrecision sym) = q := by
      injection h
    subst hq
    refine ⟨roundTo_nonneg _ _ ?_, ⟨_, rfl⟩⟩
    exact div_nonneg (mul_nonneg (mul_nonneg hb hpct) hlev) hp.le

/-- C3 counterexample: for the unlisted symbol SOLUSDT the code rounds
to 3 decimal places, not the claimed coarser 2: at balance 10000,
fraction 0.4, leverage 10, price 32500 the code returns 1.231 while the
claimed 2-place rounding of the same raw quantity is 1.23. -/
theorem c3_counterexample :
    calculate_position_size "SOLUSDT" 10000 (4/10) 10 32500 = .ok (1231/1000) ∧
    roundTo (10000 * (4/10) * 10 / 32500) 2 = 123/100 ∧
    (1231/1000 : ℚ) ≠ 123/100 := by
  refine ⟨?_, ?_, by norm_num⟩
  · norm_num [calculate_position_size, roundTo, roundHalfEven]
    decide
  · norm_num [roundTo, roundHalfEven]

/-- C3 witness: the amended formula instantiated for ETHUSDT at concrete
inputs. -/
theorem c3_witness :
    calculate_position_size "ETHUSDT" 5000 (1/2) 10 2500 =
      .ok (roundTo (5000 * (1/2) * 10 / 2500) (symbolPrecision "ETHUSDT")) :=
  c3_claim.1 "ETHUSDT" 5000 (1/2) 10 2500 (by norm_num)

/-- C9 (amended): `calculate_position_size` has no degenerate-input
guard: a zero price raises `ZeroDivisionError` instead of returning an
error value chosen by the code; a zero balance yields quantity 0 only by
arithmetic; and a negative balance flows through to a negative order
quantity (balance -10000, fraction 0.4, leverage 10, price 50000 gives
-0.8). -/
theorem c9_claim :
    (∀ (symbol : String) (b pct lev : ℚ),
      calculate_position_size symbol b pct lev 0 = .error .zeroDivision) ∧
    (∀ (symbol : String) (pct lev p : ℚ), p ≠ 0 →
      calculate_position_size symbol 0 pct lev p = .ok 0) ∧
    calculate_position_size "BTCUSDT" (-10000) (4/10) 10 50000 = .ok (-(4/5)) := by
  refine ⟨fun sym b pct lev => by simp [calculate_position_size], ?_, ?_⟩
  · intro sym pct lev p hp
    rw [calculate_position_size_eq sym 0 pct lev p hp]
    norm_num [roundTo, roundHalfEven]
  · norm_num [calculate_position_size, roundTo, roundHalfEven]

/-- C9 counterexample: with a negative balance (≤ 0) the function does
not return an error or zero sentinel — it returns the negative usable
quantity -1.6, contradicting the claimed guard. -/
theorem c9_counterexample :
    calculate_position_size "BTCUSDT" (-20000) (4/10) 10 50000 = .ok (-(8/5)) ∧
    (-(8/5) : ℚ) < 0 := by
  constructor
  · norm_num [calculate_position_size, roundTo, roundHalfEven]
  · norm_num

/-- C9 witness: the zero-balance zero-sentinel case instantiated. -/
theorem c9_witness : calculate_position_size "BTCUSDT" 0 (2/5) 10 50000 = .ok 0 :=
  c9_claim.2.1 "BTCUSDT" (2/5) 10 50000 (by norm_num)

/-- C7 (confirmed): whenever the engine is flat, a last close time `t`
is recorded, and `now - t` is below the 15-minute cooldown, the tick
returns at the cooldown guard: no order is submitted and the state is
unchanged, for every value of `now`. -/
theorem c7_claim (symbol : String) (k pct lev t : ℚ)
    (s : VbsState) (inp : VbsInput)
    (_hflat : inp.positionAmt = 0)
    (hlast : s.lastCloseTime = some t)
    (hcool : inp.now - t < 15) :
    vbsTick symbol k pct lev s inp = .ok ⟨s, [], .blocked⟩ := by
  unfold vbsTick
  rw [hlast]
  simp [cooldownActive, hcool]

/-- C7 witness: a flat engine 10 minutes after a recorded close submits
nothing. -/
theorem c7_witness :
    vbsTick "BTCUSDT" (1/2) (2/5) 10 ⟨some 10⟩ ⟨20, [], 0, 0, 50000, 10000⟩ =
      .ok ⟨⟨some 10⟩, [], .blocked⟩ :=
  c7_claim "BTCUSDT" (1/2) (2/5) 10 10 ⟨some 10⟩ ⟨20, [], 0, 0, 50000, 10000⟩
    rfl rfl (by norm_num)

/-- C8 (confirmed): for every price stream, entry side, quantity and
`max_hold_bars`, the holding phase of null.py submits exactly one
closing market order, on the side opposite the entry: either the
in-loop close fires (and then `bars_held < max_hold_bars`, so the
post-loop forced close is skipped), or the loop runs out and exactly the
forced close fires — never zero orders and never two. -/
theorem c8_claim (side : Side) (qty : ℚ) (prices : ℕ → ℚ)
    (entry_price : ℚ) (max_hold_bars : ℕ) :
    holdPhase side qty prices entry_price max_hold_bars =
      [⟨oppositeSide side, qty⟩] := by
  unfold holdPhase
  rcases holdLoop_spec (max_hold_bars - 0) side qty prices entry_price entry_price
      0 max_hold_bars rfl (Nat.zero_le _) with ⟨b2, hlt, heq⟩ | heq
  · rw [heq]
    simp only []
    rw [if_neg (by omega)]
  · rw [heq]
    simp only []
    rw [if_pos (Nat.le_refl _)]
    rfl

/-- C1 (amended): when the movement over the last `num_bars` candles
clears the threshold and the ticker price has reached the retracement
level `close[last] - (movement/2) * close[last]`, the null.py entry
decision submits a SELL order after an upward movement whose price has
retraced down to the level, and a BUY order after a downward movement
whose price has retraced up to the level (`side = BUY if movement < 0
else SELL` at null.py line 132) — the opposite sides to the ones the
claim states — sized at `balance * pct / price * leverage`. -/
theorem c1_claim : ∀ (closes : List ℚ) (num_bars : ℕ)
    (thr pct lev price balance m last_close : ℚ),
    calculate_movement closes num_bars = .ok m →
    |m| ≥ thr →
    closes.getLast? = some last_close →
    price ≠ 0 →
    ((m > 0 → price ≤ last_close - m / 2 * last_close →
        nullEntryDecision closes num_bars thr pct lev price balance =
          .ok (some ⟨Side.sell, balance * pct / price * lev⟩)) ∧
     (m < 0 → price ≥ last_close - m / 2 * last_close →
        nullEntryDecision closes num_bars thr pct lev price balance =
          .ok (some ⟨Side.buy, balance * pct / price * lev⟩))) := by
  intro closes num_bars thr pct lev price balance m last_close hmov hthr hlast hp
  constructor
  · intro hm hpr
    simp only [nullEntryDecision, hmov, hlast]
    rw [if_pos hthr]
    rw [if_pos (Or.inl ⟨hm, hpr⟩)]
    rw [if_neg hp]
    rw [if_neg (by linarith : ¬ m < 0)]
  · intro hm hpr
    simp only [nullEntryDecision, hmov, hlast]
    rw [if_pos hthr]
    rw [if_pos (Or.inr ⟨hm, hpr⟩)]
    rw [if_neg hp]
    rw [if_pos hm]

/-- C1 counterexample: with closes 100 then 110 over 2 bars the movement
is +10 percent (upward), the retrace level is 104.5, and at price 104
the code submits a SELL order, not the BUY entry the claim asserts for
an upward movement. -/
theorem c1_counterexample :
    nullEntryDecision [100, 110] 2 (3/100) (1/2) 10 104 1000 =
      .ok (some ⟨Side.sell, 625/13⟩) ∧
    Side.sell ≠ Side.buy := by
  have h : |(1 : ℚ)/10| = 1/10 := abs_of_pos (by norm_num)
  exact ⟨by norm_num [nullEntryDecision, calculate_movement, h], by simp⟩

/-- C1 witness: the amended rule instantiated on a downward movement
(-10 percent) whose price has retraced up to the level: a BUY order. -/
theorem c1_witness :
    nullEntryDecision [200, 180] 2 (3/100) (1/2) 10 190 1000 =
      .ok (some ⟨Side.buy, 1000 * (1/2) / 190 * 10⟩) :=
  (c1_claim [200, 180] 2 (3/100) (1/2) 10 190 1000 (-(1/10)) 180
    (by norm_num [calculate_movement])
    (by rw [abs_neg, abs_of_pos (by norm_num : (0:ℚ) < 1/10)]; norm_num)
    rfl (by norm_num)).2 (by norm_num) (by norm_num)

/-- C4 (amended): in the entry section of the breakout engine, when
neither trigger fires the result is no signal and no order; but when
both triggers fire the `if/elif` chain gives the long trigger
precedence, so a flat engine submits a BUY entry rather than the "no
signal" the claim asserts for the both-fire case. -/
theorem c4_claim : ∀ (latest : Candle) (buySig sellSig : Option ℚ)
    (quantity positionAmt : ℚ) (s : VbsState),
    (gtOpt latest.high buySig = false → ltOpt latest.low sellSig = false →
      vbsEntryPhase latest buySig sellSig quantity positionAmt s = ⟨s, [], .noSignal⟩) ∧
    (gtOpt latest.high buySig = true → ltOpt latest.low sellSig = true →
      positionAmt = 0 →
      vbsEntryPhase latest buySig sellSig quantity positionAmt s =
        ⟨s, [⟨.buy, quantity⟩], .enterLong⟩) := by
  intro latest buySig sellSig quantity positionAmt s
  constructor
  · intro h1 h2
    simp [vbsEntryPhase, h1, h2]
  · intro h1 h2 h3
    simp [vbsEntryPhase, h1, h3]

/-- C4 counterexample: a candle whose high (120) exceeds the buy level
(110) and whose low (80) falls below the sell level (90) — both
triggers fire — makes a flat tick submit a BUY entry order, not the "no
signal, no order" the claim asserts. -/
theorem c4_counterexample :
    vbsTick "BTCUSDT" (1/2) (2/5) 10 ⟨none⟩
      ⟨0, [⟨100, 110, 90, 100⟩, ⟨100, 120, 80, 100⟩], 0, 0, 50000, 10000⟩ =
      .ok ⟨⟨none⟩, [⟨Side.buy, 4/5⟩], .enterLong⟩ ∧
    gtOpt (120 : ℚ) (buySignalLevel [⟨100, 110, 90, 100⟩, ⟨100, 120, 80, 100⟩] (1/2)) = true ∧
    ltOpt (80 : ℚ) (sellSignalLevel [⟨100, 110, 90, 100⟩, ⟨100, 120, 80, 100⟩] (1/2)) = true ∧
    ([⟨Side.buy, 4/5⟩] : List Order) ≠ [] := by
  have hq : calculate_position_size "BTCUSDT" 10000 (2/5) 10 50000 = .ok (4/5) := by
    norm_num [calculate_position_size, roundTo, roundHalfEven]
  refine ⟨?_, ?_, ?_, by simp⟩
  · norm_num [vbsTick, cooldownActive, buySignalLevel, sellSignalLevel, hq,
      vbsEntryPhase, gtOpt, ltOpt]
  · norm_num [gtOpt, buySignalLevel]
  · norm_num [ltOpt, sellSignalLevel]

/-- C4 witness: the amended both-fire rule instantiated (both triggers
true, flat position, long branch taken). -/
theorem c4_witness :
    vbsEntryPhase ⟨200, 230, 170, 200⟩ (some 220) (some 180) (1/2) 0 ⟨none⟩ =
      ⟨⟨none⟩, [⟨Side.buy, 1/2⟩], .enterLong⟩ :=
  (c4_claim ⟨200, 230, 170, 200⟩ (some 220) (some 180) (1/2) 0 ⟨none⟩).2
    (by norm_num [gtOpt]) (by norm_num [ltOpt]) rfl

/-- C5 (amended): `calculate_movement` returns zero movement for every
window shorter than the lookback (including the empty window), and a
breakout tick on a window of length 1 — where the shifted previous-candle
columns are NaN — takes the no-signal branch and submits nothing; but
the breakout computation on the empty window raises an index error
rather than returning "no signal" (see the counterexample). -/
theorem c5_claim :
    (∀ (closes : List ℚ) (num_bars : ℕ), closes.length < num_bars →
      calculate_movement closes num_bars = .ok 0) ∧
    (∀ (symbol : String) (k pct lev : ℚ) (c : Candle) (s : VbsState) (inp : VbsInput),
      s.lastCloseTime = none → inp.window = [c] → inp.positionAmt = 0 →
      inp.currentPrice ≠ 0 →
      vbsTick symbol k pct lev s inp = .ok ⟨s, [], .noSignal⟩) := by
  constructor
  · intro closes num_bars h
    simp [calculate_movement, h]
  · intro symbol k pct lev c s inp hs hw hamt hp
    unfold vbsTick
    rw [hs, hw, calculate_position_size_eq symbol inp.balance pct lev inp.currentPrice hp]
    simp [cooldownActive, hamt, buySignalLevel, sellSignalLevel, vbsEntryPhase, gtOpt, ltOpt]

/-- C5 counterexample: on the empty candle window the breakout tick
raises an index error (`data.iloc[-1]` on an empty frame) instead of
returning "no signal", contradicting the "never throws, including the
empty window" part of the claim. -/
theorem c5_counterexample :
    vbsTick "BTCUSDT" (1/2) (2/5) 10 ⟨none⟩ ⟨0, [], 0, 0, 50000, 10000⟩ =
      .error .indexError := rfl

/-- C5 witness: the short-window no-signal behaviour instantiated for a
movement window of length 1 with lookback 6 and a breakout window of
length 1. -/
theorem c5_witness :
    calculate_movement [100] 6 = .ok 0 ∧
    vbsTick "BTCUSDT" (1/2) (2/5) 10 ⟨none⟩
      ⟨0, [⟨100, 110, 90, 100⟩], 0, 0, 50000, 10000⟩ =
      .ok ⟨⟨none⟩, [], .noSignal⟩ :=
  ⟨c5_claim.1 [100] 6 (by decide),
   c5_claim.2 "BTCUSDT" (1/2) (2/5) 10 ⟨100, 110, 90, 100⟩ ⟨none⟩
     ⟨0, [⟨100, 110, 90, 100⟩], 0, 0, 50000, 10000⟩ rfl rfl rfl (by norm_num)⟩

/-- C6 (amended): the breakout variant does round every computed entry
quantity to the symbol's precision inside `calculate_position_size`, but
the movement variant submits the raw quantity
`balance * pct / price * leverage` with no rounding at all, and neither
variant suppresses zero-quantity orders: when the reported balance is 0
and the movement entry fires, an order with quantity 0 is still
submitted. -/
theorem c6_claim :
    (∀ (symbol : String) (b pct lev p : ℚ), p ≠ 0 →
      calculate_position_size symbol b pct lev p =
        .ok (roundTo (b * pct * lev / p) (symbolPrecision symbol))) ∧
    (∀ (closes : List ℚ) (num_bars : ℕ) (thr pct lev price m last_close : ℚ),
      calculate_movement closes num_bars = .ok m →
      |m| ≥ thr →
      closes.getLast? = some last_close →
      (m > 0 ∧ price ≤ last_close - m / 2 * last_close) ∨
        (m < 0 ∧ price ≥ last_close - m / 2 * last_close) →
      price ≠ 0 →
      nullEntryDecision closes num_bars thr pct lev price 0 =
        .ok (some ⟨if m < 0 then Side.buy else Side.sell, 0⟩)) := by
  refine ⟨calculate_position_size_eq, ?_⟩
  intro closes num_bars thr pct lev price m last_close hmov hthr hlast hcond hp
  simp only [nullEntryDecision, hmov, hlast]
  rw [if_pos hthr, if_pos hcond, if_neg hp]
  norm_num

/-- C6 counterexample: the movement variant submits the unrounded
quantity 1250/13 ≈ 96.1538461…, which is not equal to its own rounding
at the BTC lot precision of 3 decimals; and with balance 0 the same
entry path submits an order of quantity 0. -/
theorem c6_counterexample :
    nullEntryDecision [100, 110] 2 (3/100) (1/2) 10 104 2000 =
      .ok (some ⟨Side.sell, 1250/13⟩) ∧
    roundTo (1250/13) 3 ≠ (1250/13 : ℚ) ∧
    nullEntryDecision [100, 110] 2 (3/100) (1/2) 10 104 0 =
      .ok (some ⟨Side.sell, 0⟩) := by
  have h : |(1 : ℚ)/10| = 1/10 := abs_of_pos (by norm_num)
  refine ⟨?_, ?_, ?_⟩
  · norm_num [nullEntryDecision, calculate_movement, h]
  · norm_num [roundTo, roundHalfEven]
  · norm_num [nullEntryDecision, calculate_movement, h]

/-- C6 witness: the zero-balance zero-quantity submission instantiated
on a fresh window (closes 300 then 330). -/
theorem c6_witness :
    nullEntryDecision [300, 330] 2 (3/100) (1/2) 10 310 0 =
      .ok (some ⟨Side.sell, 0⟩) := by
  have h := c6_claim.2 [300, 330] 2 (3/100) (1/2) 10 310 (1/10) 330
    (by norm_num [calculate_movement])
    (by rw [abs_of_pos (by norm_num : (0:ℚ) < 1/10)]; norm_num)
    rfl (Or.inl ⟨by norm_num, by norm_num⟩) (by norm_num)
  simpa using h

/-- A concrete reversal tick: a short position (-1) with zero ROI, a
candle window whose high breaks the buy level, cooldown unset — the tick
closes the short and opens a long without touching the last close
time. -/
theorem vbsTick_reversal_example :
    vbsTick "BTCUSDT" (1/2) (2/5) 10 ⟨none⟩
      ⟨0, [⟨100, 110, 90, 100⟩, ⟨100, 120, 80, 100⟩], -1, 50000, 50000, 10000⟩ =
      .ok ⟨⟨none⟩, [⟨Side.buy, 1⟩, ⟨Side.buy, 4/5⟩], .reverseShortToLong⟩ := by
  have hq : calculate_position_size "BTCUSDT" 10000 (2/5) 10 50000 = .ok (4/5) := by
    norm_num [calculate_position_size, roundTo, roundHalfEven]
  norm_num [vbsTick, cooldownActive, buySignalLevel, sellSignalLevel, hq,
    vbsRoi, vbsEntryPhase, gtOpt, ltOpt]

/-- C10 (amended): `last_close_time` is written only by the
profit-target exit path — any tick whose outcome is not a profit exit
(in particular a signal-reversal close followed by a re-entry, and every
plain entry) leaves it unchanged — and consequently, in every run that
starts with no recorded close time and in which no profit-target exit
fires, the cooldown never blocks any tick. A profit-target exit
elsewhere in the run can still arm the cooldown and block later entries,
even if some position was closed by signal reversal (see the
counterexample). -/
theorem c10_claim (symbol : String) (k pct lev : ℚ) :
    (∀ (s : VbsState) (inp : VbsInput) (r : TickResult),
      vbsTick symbol k pct lev s inp = .ok r → r.outcome ≠ .profitExit →
      r.state = s) ∧
    (∀ inputs : List VbsInput,
      (∀ r ∈ vbsRun symbol k pct lev ⟨none⟩ inputs, r.outcome ≠ .profitExit) →
      ∀ r ∈ vbsRun symbol k pct lev ⟨none⟩ inputs, r.outcome ≠ .blocked) :=
  ⟨fun _ _ _ h hout => vbsTick_state_eq h hout,
   fun inputs h => vbsRun_no_profit_no_blocked symbol k pct lev inputs ⟨none⟩ rfl h⟩

/-- C10 counterexample: a three-tick run containing a signal-reversal
close (tick 1) in which a later profit-target exit (tick 2, ROI 6
percent) arms the cooldown, so the subsequent entry tick (tick 3, ten
minutes later) is blocked — contradicting the claim that in every run
with a signal-reversal close the cooldown never blocks any subsequent
entry. -/
theorem c10_counterexample :
    (vbsRun "BTCUSDT" (1/2) (2/5) 10 ⟨none⟩
        [⟨0, [⟨100, 110, 90, 100⟩, ⟨100, 120, 80, 100⟩], -1, 50000, 50000, 10000⟩,
         ⟨10, [⟨100, 110, 90, 100⟩, ⟨100, 120, 80, 100⟩], 4/5, 50000, 53000, 10000⟩,
         ⟨20, [⟨100, 110, 90, 100⟩, ⟨100, 120, 80, 100⟩], 0, 0, 50000, 10000⟩]).map
      TickResult.outcome =
      [.reverseShortToLong, .profitExit, .blocked] := by
  have hq2 : calculate_position_size "BTCUSDT" 10000 (2/5) 10 53000 = .ok (151/200) := by
    norm_num [calculate_position_size, roundTo, roundHalfEven]
  have h2 : vbsTick "BTCUSDT" (1/2) (2/5) 10 ⟨none⟩
      ⟨10, [⟨100, 110, 90, 100⟩, ⟨100, 120, 80, 100⟩], 4/5, 50000, 53000, 10000⟩ =
      .ok ⟨⟨some 10⟩, [⟨Side.sell, 4/5⟩], .profitExit⟩ := by
    norm_num [vbsTick, cooldownActive, hq2, vbsRoi]
  have h3 : vbsTick "BTCUSDT" (1/2) (2/5) 10 ⟨some 10⟩
      ⟨20, [⟨100, 110, 90, 100⟩, ⟨100, 120, 80, 100⟩], 0, 0, 50000, 10000⟩ =
      .ok ⟨⟨some 10⟩, [], .blocked⟩ := by
    norm_num [vbsTick, cooldownActive]
  simp only [vbsRun, vbsTick_reversal_example, h2, h3]
  rfl

/-- C10 witness: the frame property applied to the concrete reversal
tick — the resulting state still carries no last close time. -/
theorem c10_witness :
    (⟨⟨none⟩, [⟨Side.buy, 1⟩, ⟨Side.buy, 4/5⟩], .reverseShortToLong⟩ : TickResult).state =
      (⟨none⟩ : VbsState) :=
  (c10_claim "BTCUSDT" (1/2) (2/5) 10).1 ⟨none⟩
    ⟨0, [⟨100, 110, 90, 100⟩, ⟨100, 120, 80, 100⟩], -1, 50000, 50000, 10000⟩
    ⟨⟨none⟩, [⟨Side.buy, 1⟩, ⟨Side.buy, 4/5⟩], .reverseShortToLong⟩
    vbsTick_reversal_example (by simp)
